import Mathlib

/-!
Verification development for the DewyKB.github.io documentation site.

The repository consists of declarative artifacts: a GitHub Actions workflow
that builds and deploys the site, a Docusaurus site configuration, a footer
theme override that appends a tracking pixel, blog posts with frontmatter,
documentation pages, and an OpenAPI 3.1 document describing the external
Dewy REST API.  Each artifact is embedded below as Lean data translated
directly from the source files, and the stated properties are proved about
these embeddings.
-/

namespace DewySite

/-! ### CI workflow (GitHub Actions, workflow `Site`)

Embedding of the workflow file: triggers, jobs, steps, and the deploy
job gating expression `github.event_name == 'push' && github.ref ==
'refs/heads/main'`.  The gating expression is embedded as a small
expression AST together with its evaluator over a trigger context, so
that the gating theorem is about actual expression evaluation. -/

/-- A value of a GitHub Actions expression: a string or a boolean. -/
inductive GhVal where
  | vStr (s : String)
  | vBool (b : Bool)
deriving DecidableEq

/-- GitHub Actions expression fragment sufficient for the workflow file:
string literals, context lookups, equality, and conjunction. -/
inductive GhExpr where
  | lit (s : String)
  | ctxVar (name : String)
  | eqE (a b : GhExpr)
  | andE (a b : GhExpr)
deriving DecidableEq

/-- The trigger context of a workflow run: the event that triggered it and
the git ref it runs against. -/
structure GithubCtx where
  event_name : String
  ref : String
deriving DecidableEq

/-- Context lookup for the two context variables the workflow file uses. -/
def lookupCtx (g : GithubCtx) (name : String) : String :=
  if name = "github.event_name" then g.event_name
  else if name = "github.ref" then g.ref
  else ""

/-- Truthiness of an expression value: booleans are themselves, strings are
truthy when nonempty (GitHub Actions coercion, restricted to what occurs). -/
def GhVal.truthy : GhVal → Bool
  | .vStr s => !(s == "")
  | .vBool b => b

/-- Equality of two expression values, as used by the `==` operator. -/
def ghValEq : GhVal → GhVal → Bool
  | .vStr a, .vStr b => a == b
  | .vBool a, .vBool b => a == b
  | .vStr a, .vBool b => a == (if b then "true" else "false")
  | .vBool a, .vStr b => (if a then "true" else "false") == b

/-- Evaluate a GitHub Actions expression in a trigger context.  `&&`
evaluates the left operand and returns it when falsy, otherwise the
right operand. -/
def evalGh (g : GithubCtx) : GhExpr → GhVal
  | .lit s => .vStr s
  | .ctxVar n => .vStr (lookupCtx g n)
  | .eqE a b => .vBool (ghValEq (evalGh g a) (evalGh g b))
  | .andE a b => if (evalGh g a).truthy then evalGh g b else evalGh g a

/-- A workflow step action, as written in the workflow file. -/
inductive StepAction where
  | checkout
  | setupNode
  | runCmd (cmd : String)
  | uploadPagesArtifact (path : String)
  | deployPages
deriving DecidableEq

/-- A workflow step: optional display name plus its action. -/
structure Step where
  stepName : Option String
  action : StepAction
deriving DecidableEq

/-- Result of a finished job in a workflow run. -/
inductive JobResult where
  | success
  | failure
  | cancelled
  | skipped
deriving DecidableEq

/-- A workflow job: display name, optional gating condition, the jobs it
needs, and its steps. -/
structure Job where
  displayName : String
  ifCond : Option GhExpr
  needs : List String
  steps : List Step
deriving DecidableEq

/-- The gating condition of the deploy job, from the workflow file:
`github.event_name == 'push' && github.ref == 'refs/heads/main'`. -/
def deployIfExpr : GhExpr :=
  .andE (.eqE (.ctxVar "github.event_name") (.lit "push"))
        (.eqE (.ctxVar "github.ref") (.lit "refs/heads/main"))

/-- The `build` job of the workflow `Site`. -/
def buildJob : Job :=
  { displayName := "Build Site"
    ifCond := none
    needs := []
    steps :=
      [ { stepName := none, action := .checkout }
      , { stepName := none, action := .setupNode }
      , { stepName := some "Install dependencies"
          action := .runCmd "yarn install --frozen-lockfile" }
      , { stepName := some "Generate OpenAPI Docs"
          action := .runCmd "yarn gen-api-docs" }
      , { stepName := some "Build website", action := .runCmd "yarn build" }
      , { stepName := some "Upload docs"
          action := .uploadPagesArtifact "build" } ] }

/-- The `deploy` job of the workflow `Site`. -/
def deployJob : Job :=
  { displayName := "Deploy Site"
    ifCond := some deployIfExpr
    needs := ["build"]
    steps := [ { stepName := some "Deploy to GitHub Pages"
                 action := .deployPages } ] }

/-- The jobs of the workflow `Site`, keyed by job id. -/
def siteWorkflowJobs : List (String × Job) :=
  [("build", buildJob), ("deploy", deployJob)]

/-- Triggers of the workflow `Site`: push to `main` on any path, and pull
requests on any path. -/
structure WorkflowTriggers where
  pushBranches : List String
  pushPaths : List String
  pullRequestPaths : List String
deriving DecidableEq

/-- The `on:` block of the workflow `Site`. -/
def siteWorkflowOn : WorkflowTriggers :=
  { pushBranches := ["main"], pushPaths := ["**"], pullRequestPaths := ["**"] }

/-- Whether a job gating condition holds in a trigger context (a job with no
condition always passes). -/
def jobCondHolds (g : GithubCtx) : Option GhExpr → Bool
  | none => true
  | some e => (evalGh g e).truthy

/-- GitHub Actions job scheduling: a job runs in a given run exactly when
every job it needs has succeeded and its gating condition holds. -/
def jobRuns (g : GithubCtx) (results : String → JobResult) (j : Job) : Bool :=
  j.needs.all (fun n => results n == JobResult.success) && jobCondHolds g j.ifCond

/-! ### Footer theme override (`src/theme/Footer/Layout/index.js`)

The component returns a fragment holding the original theme footer layout
with the props spread through unchanged, followed by one `img` element. -/

/-- Rendered output of the footer override, over an arbitrary props type
`P`: the original theme `Footer/Layout` component applied to props, an
`img` element with its attribute list, or a JSX fragment. -/
inductive ReactNode (P : Type) where
  | themeFooterLayout (props : P)
  | img (attrs : List (String × String))
  | fragment (children : List (ReactNode P))

/-- Attributes of the tracking pixel `img` element in the footer override. -/
def scarfPixelAttrs : List (String × String) :=
  [ ("referrerpolicy", "no-referrer-when-downgrade")
  , ("src", "https://static.scarf.sh/a.png?x-pxid=1ae0716d-6256-423a-acf3-dc0a41f831c3") ]

/-- The footer override component: renders the original layout with the
given props and appends the tracking pixel, inside a fragment. -/
def LayoutWrapper {P : Type} (props : P) : ReactNode P :=
  .fragment [.themeFooterLayout props, .img scarfPixelAttrs]

/-- The children of a rendered node (a non-fragment node is its own sole
child). -/
def fragmentChildren {P : Type} : ReactNode P → List (ReactNode P)
  | .fragment cs => cs
  | n => [n]

/-- Number of `img` elements directly in a list of children. -/
def imgCount {P : Type} (cs : List (ReactNode P)) : Nat :=
  cs.countP fun c => match c with
    | .img _ => true
    | _ => false

/-! ### Site configuration (`docusaurus.config.ts`) -/

/-- One entry of the client-redirects plugin table. -/
structure ClientRedirect where
  toPath : String
  fromPath : String
deriving DecidableEq

/-- The redirect table of the `@docusaurus/plugin-client-redirects` plugin
configuration, in source order. -/
def clientRedirects : List ClientRedirect :=
  [ { toPath := "/docs/GettingStarted/admin_ui"
      fromPath := "/docs/Getting Started/admin_ui" }
  , { toPath := "/docs/GettingStarted/clients"
      fromPath := "/docs/Getting Started/clients" }
  , { toPath := "/docs/GettingStarted/configuration"
      fromPath := "/docs/Getting Started/configuration" }
  , { toPath := "/docs/GettingStarted/installation"
      fromPath := "/docs/Getting Started/installation" }
  , { toPath := "/docs/UserManual/concepts"
      fromPath := "/docs/User Manual/concepts" } ]

/-- The fields of the Docusaurus site configuration object relevant to this
development. -/
structure SiteConfig where
  title : String
  tagline : String
  url : String
  baseUrl : String
  organizationName : String
  projectName : String
  onBrokenLinks : String
  onBrokenMarkdownLinks : String
  redirects : List ClientRedirect
deriving DecidableEq

/-- The site configuration object from `docusaurus.config.ts`. -/
def config : SiteConfig :=
  { title := "Dewy"
    tagline := "The Knowledge Base API for GenAI"
    url := "https://DewyKB.github.io"
    baseUrl := "/"
    organizationName := "DewyKB"
    projectName := "dewy"
    onBrokenLinks := "throw"
    onBrokenMarkdownLinks := "warn"
    redirects := clientRedirects }

/-- Remove every space character from a string. -/
def removeSpaces (s : String) : String :=
  String.mk (s.data.filter (fun c => !(c == ' ')))

/-! ### Blog post frontmatter -/

/-- Frontmatter fields of a blog post relevant to this development. -/
structure BlogFrontmatter where
  slug : String
  postTitle : String
  image : Option String
  authors : List String
deriving DecidableEq

/-- Frontmatter of `blog/2024-02-01-introducing-dewy/index.mdx`. -/
def introducingDewyPost : BlogFrontmatter :=
  { slug := "introducing-dewy"
    postTitle := "Introducing Dewy"
    image := some "./dewy_architecture.png"
    authors := ["ryan", "ben"] }

/-- Frontmatter of `blog/2024-02-16-rag-for-real/index.mdx`. -/
def ragForRealPost : BlogFrontmatter :=
  { slug := "rag-for-real"
    postTitle := "RAG for Real - Gotchas to consider before building your app"
    image := some "./banner.png"
    authors := ["ryan"] }

/-- Frontmatter of the LangChain question-answering CLI blog post. -/
def langchainPythonCliPost : BlogFrontmatter :=
  { slug := "langchain-python-cli"
    postTitle := "Building a question-answering CLI with LangChain and Dewy"
    image := some "./banner.png"
    authors := ["ben"] }

/-- Frontmatter of the RAG tool with Vercel Generative UI blog post. -/
def ragToolVercelPost : BlogFrontmatter :=
  { slug := "rag-tool-vercel-gen-ai"
    postTitle := "Building a RAG \"tool\" with Dewy and Vercel\x27s Generative UI components"
    image := some "rag-tool.png"
    authors := ["ryan"] }

/-- All blog posts in the repository. -/
def blogPosts : List BlogFrontmatter :=
  [introducingDewyPost, ragForRealPost, langchainPythonCliPost, ragToolVercelPost]

/-! ### OpenAPI document (`specs/` OpenAPI 3.1 file, title Dewy Knowledge Base API)

The document is embedded as data: operations with their parameters,
request bodies and responses, and the object schemas the claims are
about, together with JSON-Schema-style satisfaction of an object schema
by a JSON object. -/

/-- A JSON value, restricted to the shapes the embedded schemas use. -/
inductive JsonValue where
  | jStr (s : String)
  | jInt (n : Int)
  | jBool (b : Bool)
  | jNull
deriving DecidableEq

/-- The schema of a single object property, covering exactly the property
shapes occurring in the embedded schemas: plain types, nullable types
(`anyOf` with null), a string constant (`const`), and a string enumeration
(the `DistanceMetric` component, resolved inline). -/
inductive FieldSchema where
  | strT
  | intT
  | boolT
  | nullableStr
  | nullableInt
  | constStr (s : String)
  | strEnum (vals : List String)
deriving DecidableEq

/-- One property of an object schema: its name, its field schema, and its
declared default, when present. -/
structure SchemaProperty where
  propName : String
  fieldType : FieldSchema
  defaultVal : Option JsonValue
deriving DecidableEq

/-- An object schema: its properties and its list of required property
names.  Additional properties are permitted, as in the source document,
which never sets `additionalProperties`. -/
structure ObjectSchema where
  properties : List SchemaProperty
  required : List String
deriving DecidableEq

/-- A JSON object, as a list of fields. -/
abbrev JsonObject := List (String × JsonValue)

/-- Whether a JSON value matches a field schema. -/
def fieldMatches : FieldSchema → JsonValue → Bool
  | .strT, .jStr _ => true
  | .intT, .jInt _ => true
  | .boolT, .jBool _ => true
  | .nullableStr, .jStr _ => true
  | .nullableStr, .jNull => true
  | .nullableInt, .jInt _ => true
  | .nullableInt, .jNull => true
  | .constStr c, .jStr s => c == s
  | .strEnum vals, .jStr s => vals.contains s
  | _, _ => false

/-- Look up a field of a JSON object. -/
def getField (o : JsonObject) (k : String) : Option JsonValue :=
  (o.find? (fun p => p.1 == k)).map (fun p => p.2)

/-- Look up the field schema of a property of an object schema. -/
def findProp (s : ObjectSchema) (k : String) : Option FieldSchema :=
  (s.properties.find? (fun p => p.propName == k)).map (fun p => p.fieldType)

/-- Look up the declared default of a property of an object schema. -/
def defaultOfProp (s : ObjectSchema) (k : String) : Option JsonValue :=
  (s.properties.find? (fun p => p.propName == k)).bind (fun p => p.defaultVal)

/-- Whether one field of a JSON object conforms to an object schema: a field
whose name is a declared property must match that property, and a field
with no declared property is an additional property, which is allowed. -/
def fieldOkBySchema (s : ObjectSchema) (p : String × JsonValue) : Bool :=
  match s.properties.find? (fun q => q.propName == p.1) with
  | some q => fieldMatches q.fieldType p.2
  | none => true

/-- JSON-Schema satisfaction of an object schema by a JSON object: every
required property is present, and every present field conforms. -/
def satisfiesSchema (s : ObjectSchema) (o : JsonObject) : Bool :=
  s.required.all (fun k => (getField o k).isSome) && o.all (fieldOkBySchema s)

/-- The `TextChunk` component schema. -/
def TextChunkSchema : ObjectSchema :=
  { properties :=
      [ ⟨"id", .intT, none⟩
      , ⟨"document_id", .intT, none⟩
      , ⟨"kind", .constStr "text", some (.jStr "text")⟩
      , ⟨"text", .strT, none⟩
      , ⟨"raw", .boolT, none⟩
      , ⟨"start_char_idx", .nullableInt, none⟩
      , ⟨"end_char_idx", .nullableInt, none⟩ ]
    required := ["id", "document_id", "text", "raw"] }

/-- The `ImageChunk` component schema. -/
def ImageChunkSchema : ObjectSchema :=
  { properties :=
      [ ⟨"id", .intT, none⟩
      , ⟨"document_id", .intT, none⟩
      , ⟨"kind", .constStr "image", some (.jStr "image")⟩
      , ⟨"image", .nullableStr, none⟩
      , ⟨"image_mimetype", .nullableStr, none⟩
      , ⟨"image_path", .nullableStr, none⟩
      , ⟨"image_url", .nullableStr, none⟩ ]
    required := ["id", "document_id", "image", "image_mimetype", "image_path", "image_url"] }

/-- The `CollectionCreate` component schema, with the `DistanceMetric`
reference resolved to its string enumeration. -/
def CollectionCreateSchema : ObjectSchema :=
  { properties :=
      [ ⟨"name", .strT, none⟩
      , ⟨"text_embedding_model", .strT, some (.jStr "openai:text-embedding-ada-002")⟩
      , ⟨"text_distance_metric", .strEnum ["cosine", "ip", "l2"], some (.jStr "cosine")⟩ ]
    required := ["name"] }

/-- The `RetrieveRequest` component schema. -/
def RetrieveRequestSchema : ObjectSchema :=
  { properties :=
      [ ⟨"collection", .strT, none⟩
      , ⟨"query", .strT, none⟩
      , ⟨"n", .intT, some (.jInt 10)⟩
      , ⟨"include_text_chunks", .boolT, some (.jBool true)⟩
      , ⟨"include_image_chunks", .boolT, some (.jBool true)⟩
      , ⟨"include_summary", .boolT, some (.jBool false)⟩ ]
    required := ["collection", "query"] }

/-- The schema of a response body: a component reference, an array, or a
discriminated `oneOf` over component references. -/
inductive ResponseSchema where
  | ref (name : String)
  | arrayOf (item : ResponseSchema)
  | oneOfD (alts : List String) (discProp : String) (mapping : List (String × String))
deriving DecidableEq

/-- The `oneOf` schema of chunk responses, discriminated by `kind`. -/
def chunkOneOf : ResponseSchema :=
  .oneOfD ["TextChunk", "ImageChunk"] "kind" [("text", "TextChunk"), ("image", "ImageChunk")]

/-- An HTTP method used in the document. -/
inductive HttpMethod where
  | get
  | post
  | delete
deriving DecidableEq

/-- A declared operation parameter: name, location, and whether required. -/
structure OpenApiParam where
  paramName : String
  paramIn : String
  required : Bool
deriving DecidableEq

/-- One operation of the OpenAPI document: method, path, operation id,
parameters, optional request-body schema name, and responses as pairs of
status code and body schema. -/
structure ApiOperation where
  method : HttpMethod
  path : String
  operationId : String
  params : List OpenApiParam
  requestBody : Option String
  responses : List (String × ResponseSchema)
deriving DecidableEq

/-- GET `/api/collections/`. -/
def listCollections : ApiOperation :=
  { method := .get, path := "/api/collections/", operationId := "listCollections"
    params := [], requestBody := none
    responses := [("200", .arrayOf (.ref "Collection"))] }

/-- POST `/api/collections/`. -/
def addCollection : ApiOperation :=
  { method := .post, path := "/api/collections/", operationId := "addCollection"
    params := [], requestBody := some "CollectionCreate"
    responses := [("200", .ref "Collection"), ("422", .ref "HTTPValidationError")] }

/-- GET `/api/collections/{name}`. -/
def getCollection : ApiOperation :=
  { method := .get, path := "/api/collections/{name}", operationId := "getCollection"
    params := [⟨"name", "path", true⟩], requestBody := none
    responses := [("200", .ref "Collection"), ("422", .ref "HTTPValidationError")] }

/-- DELETE `/api/collections/{name}`. -/
def deleteCollection : ApiOperation :=
  { method := .delete, path := "/api/collections/{name}", operationId := "deleteCollection"
    params := [⟨"name", "path", true⟩], requestBody := none
    responses := [("200", .ref "Collection"), ("422", .ref "HTTPValidationError")] }

/-- POST `/api/documents/`. -/
def addDocument : ApiOperation :=
  { method := .post, path := "/api/documents/", operationId := "addDocument"
    params := [], requestBody := some "AddDocumentRequest"
    responses := [("200", .ref "Document"), ("422", .ref "HTTPValidationError")] }

/-- GET `/api/documents/`. -/
def listDocuments : ApiOperation :=
  { method := .get, path := "/api/documents/", operationId := "listDocuments"
    params := [⟨"collection", "query", false⟩], requestBody := none
    responses := [("200", .arrayOf (.ref "Document")), ("422", .ref "HTTPValidationError")] }

/-- POST `/api/documents/{document_id}/content`. -/
def uploadDocumentContent : ApiOperation :=
  { method := .post, path := "/api/documents/{document_id}/content"
    operationId := "uploadDocumentContent"
    params := [⟨"document_id", "path", true⟩]
    requestBody := some "Body_uploadDocumentContent"
    responses := [("200", .ref "Document"), ("422", .ref "HTTPValidationError")] }

/-- GET `/api/documents/{id}`. -/
def getDocument : ApiOperation :=
  { method := .get, path := "/api/documents/{id}", operationId := "getDocument"
    params := [⟨"id", "path", true⟩], requestBody := none
    responses := [("200", .ref "Document"), ("422", .ref "HTTPValidationError")] }

/-- DELETE `/api/documents/{id}`. -/
def deleteDocument : ApiOperation :=
  { method := .delete, path := "/api/documents/{id}", operationId := "deleteDocument"
    params := [⟨"id", "path", true⟩], requestBody := none
    responses := [("200", .ref "Document"), ("422", .ref "HTTPValidationError")] }

/-- GET `/api/documents/{id}/status`. -/
def getDocumentStatus : ApiOperation :=
  { method := .get, path := "/api/documents/{id}/status", operationId := "getDocumentStatus"
    params := [⟨"id", "path", true⟩], requestBody := none
    responses := [("200", .ref "DocumentStatus"), ("422", .ref "HTTPValidationError")] }

/-- GET `/api/chunks/`. -/
def listChunks : ApiOperation :=
  { method := .get, path := "/api/chunks/", operationId := "listChunks"
    params :=
      [ ⟨"collection", "query", false⟩
      , ⟨"document_id", "query", false⟩
      , ⟨"page", "query", false⟩
      , ⟨"perPage", "query", false⟩ ]
    requestBody := none
    responses := [("200", .arrayOf chunkOneOf), ("422", .ref "HTTPValidationError")] }

/-- GET `/api/chunks/{id}`. -/
def getChunk : ApiOperation :=
  { method := .get, path := "/api/chunks/{id}", operationId := "getChunk"
    params := [⟨"id", "path", true⟩], requestBody := none
    responses := [("200", chunkOneOf), ("422", .ref "HTTPValidationError")] }

/-- POST `/api/chunks/retrieve`. -/
def retrieveChunks : ApiOperation :=
  { method := .post, path := "/api/chunks/retrieve", operationId := "retrieveChunks"
    params := [], requestBody := some "RetrieveRequest"
    responses := [("200", .ref "RetrieveResponse"), ("422", .ref "HTTPValidationError")] }

/-- All operations of the OpenAPI document, in document order. -/
def apiOperations : List ApiOperation :=
  [ listCollections, addCollection, getCollection, deleteCollection
  , addDocument, listDocuments, uploadDocumentContent
  , getDocument, deleteDocument, getDocumentStatus
  , listChunks, getChunk, retrieveChunks ]

/-- Whether an operation declares a 422 response. -/
def has422 (op : ApiOperation) : Bool :=
  op.responses.any (fun r => r.1 == "422")

/-- Whether an operation accepts any input: at least one parameter or a
request body. -/
def takesInput (op : ApiOperation) : Bool :=
  !op.params.isEmpty || op.requestBody.isSome

/-- Whether all declared responses of an operation are 200 responses. -/
def only200 (op : ApiOperation) : Bool :=
  op.responses.all (fun r => r.1 == "200")

/-- Look up the body schema an operation declares for a status code. -/
def lookupResponse (op : ApiOperation) (code : String) : Option ResponseSchema :=
  (op.responses.find? (fun r => r.1 == code)).map (fun r => r.2)

/-! ### Documentation tables of the Indexing and Retrieval page -/

/-- One row of a configuration table on the Indexing and Retrieval page:
the configuration name and the literal content of its Default cell. -/
structure DocConfigRow where
  configName : String
  defaultCell : String
deriving DecidableEq

/-- The indexing (collection-level) configuration table of the page. -/
def indexingConfigTable : List DocConfigRow :=
  [ ⟨"text_embedding_model", "openai:text-embedding-ada-002"⟩
  , ⟨"text_distance_metric", "cosine"⟩ ]

/-- The retrieval (query-level) configuration table of the page. -/
def retrievalConfigTable : List DocConfigRow :=
  [ ⟨"n", "10"⟩
  , ⟨"include_text_chunk", "True"⟩
  , ⟨"include_image_chunks", "True"⟩
  , ⟨"include_summary", "False"⟩ ]

/-- Decimal rendering of an integer, for comparing table cells with
integer schema defaults. -/
def intDecimal : Int → String
  | .ofNat m => String.mk (Nat.toDigits 10 m)
  | .negSucc m => "-" ++ String.mk (Nat.toDigits 10 (m + 1))

/-- Whether the literal Default cell of a documentation table denotes a
JSON default value: strings verbatim, integers in decimal, booleans in the
capitalized style the page uses. -/
def defaultCellMatches (cell : String) : JsonValue → Bool
  | .jStr s => cell == s
  | .jInt n => cell == intDecimal n
  | .jBool b => cell == (if b then "True" else "False")
  | .jNull => cell == "null"

/-- The renaming under which the retrieval table rows name properties of
`RetrieveRequest`: the table writes `include_text_chunk` for the property
`include_text_chunks`; every other row names its property verbatim. -/
def retrievalDocAlias (s : String) : String :=
  if s == "include_text_chunk" then "include_text_chunks" else s

/-! ### Theorems about the CI workflow -/

/-- Evaluating the deploy gating expression in any trigger context yields
truth exactly when the event is a push and the ref is main. -/
theorem evalGh_deployIf (g : GithubCtx) :
    (evalGh g deployIfExpr).truthy
      = ((g.event_name == "push") && (g.ref == "refs/heads/main")) := by
  simp only [deployIfExpr, evalGh, lookupCtx, ghValEq, GhVal.truthy]
  norm_num
  cases h1 : g.event_name == "push" <;>
    cases h2 : g.ref == "refs/heads/main" <;> simp_all [GhVal.truthy]

/-- C2: the deploy job depends on the build job, runs exactly when the build
job succeeded, the trigger event is `push` and the ref is `refs/heads/main`,
and in particular never runs in a pull-request-triggered run. -/
theorem deploy_only_on_push_to_main (g : GithubCtx)
    (results : String → JobResult) :
    deployJob.needs = ["build"]
    ∧ jobRuns g results deployJob
        = ((results "build" == JobResult.success)
            && ((g.event_name == "push") && (g.ref == "refs/heads/main")))
    ∧ jobRuns { event_name := "pull_request", ref := g.ref } results deployJob
        = false := by
  refine ⟨rfl, ?_, ?_⟩
  · simp [jobRuns, deployJob, jobCondHolds, evalGh_deployIf]
  · simp [jobRuns, deployJob, jobCondHolds, evalGh_deployIf]

/-- C7 counterexample: the build job does not execute exactly the five
claimed steps; it has six steps, with a Node.js setup step between checkout
and the dependency install. -/
theorem build_steps_not_the_claimed_five :
    buildJob.steps.map Step.action
      ≠ [ StepAction.checkout
        , StepAction.runCmd "yarn install --frozen-lockfile"
        , StepAction.runCmd "yarn gen-api-docs"
        , StepAction.runCmd "yarn build"
        , StepAction.uploadPagesArtifact "build" ]
    ∧ buildJob.steps.length = 6 := by
  refine ⟨by decide, rfl⟩

/-- C7 (amended): the build job executes, in order, checkout, Node.js
setup, dependency install, API-doc generation, site build and artifact
upload; the deploy step is the sole step of the separate deploy job, which
needs the build job. -/
theorem build_steps_order :
    buildJob.steps.map Step.action
      = [ StepAction.checkout
        , StepAction.setupNode
        , StepAction.runCmd "yarn install --frozen-lockfile"
        , StepAction.runCmd "yarn gen-api-docs"
        , StepAction.runCmd "yarn build"
        , StepAction.uploadPagesArtifact "build" ]
    ∧ deployJob.steps.map Step.action = [StepAction.deployPages]
    ∧ deployJob.needs = ["build"]
    ∧ siteWorkflowJobs = [("build", buildJob), ("deploy", deployJob)] := by
  refine ⟨rfl, rfl, rfl, rfl⟩

/-! ### Theorems about the footer override -/

/-- C3: for every props value, the footer override renders exactly the
original theme footer layout applied to the unchanged props followed by the
tracking pixel image, and that image is the only `img` element produced. -/
theorem footer_wrapper_layout_then_single_pixel {P : Type} (props : P) :
    LayoutWrapper props
      = ReactNode.fragment
          [ReactNode.themeFooterLayout props, ReactNode.img scarfPixelAttrs]
    ∧ fragmentChildren (LayoutWrapper props)
      = [ReactNode.themeFooterLayout props, ReactNode.img scarfPixelAttrs]
    ∧ imgCount (fragmentChildren (LayoutWrapper props)) = 1 :=
  ⟨rfl, rfl, rfl⟩

/-! ### Theorems about the site configuration -/

/-- C4: the site configuration throws on broken links and warns on broken
markdown links. -/
theorem broken_link_handling :
    config.onBrokenLinks = "throw" ∧ config.onBrokenMarkdownLinks = "warn" :=
  ⟨rfl, rfl⟩

/-- C5: the client-redirects table has exactly five entries; every entry
maps an old path under the space-containing Getting Started or User Manual
sections to the same path with the space removed; and both the from-paths
and the to-paths are pairwise distinct. -/
theorem client_redirects_drop_spaces :
    config.redirects.length = 5
    ∧ config.redirects.all
        (fun r => r.fromPath.data.contains ' '
          && (List.isPrefixOf "/docs/Getting Started/".data r.fromPath.data
              || List.isPrefixOf "/docs/User Manual/".data r.fromPath.data)
          && (r.toPath == removeSpaces r.fromPath)) = true
    ∧ (config.redirects.map ClientRedirect.fromPath).Nodup
    ∧ (config.redirects.map ClientRedirect.toPath).Nodup := by
  refine ⟨rfl, by decide, by decide, by decide⟩

/-! ### Theorems about the OpenAPI document -/

/-- The REST surface enumerated by the specification, as triples of method,
path and operation id, in the order of the enumeration: collections
list/create/get/delete, documents add/list/get/delete/status/upload-content,
chunks list/get/retrieve-by-query. -/
def claimedApiSurface : List (HttpMethod × String × String) :=
  [ (.get, "/api/collections/", "listCollections")
  , (.post, "/api/collections/", "addCollection")
  , (.get, "/api/collections/{name}", "getCollection")
  , (.delete, "/api/collections/{name}", "deleteCollection")
  , (.post, "/api/documents/", "addDocument")
  , (.get, "/api/documents/", "listDocuments")
  , (.get, "/api/documents/{id}", "getDocument")
  , (.delete, "/api/documents/{id}", "deleteDocument")
  , (.get, "/api/documents/{id}/status", "getDocumentStatus")
  , (.post, "/api/documents/{document_id}/content", "uploadDocumentContent")
  , (.get, "/api/chunks/", "listChunks")
  , (.get, "/api/chunks/{id}", "getChunk")
  , (.post, "/api/chunks/retrieve", "retrieveChunks") ]

/-- C1: the operations of the OpenAPI document are exactly the enumerated
REST surface, up to enumeration order, and no other path or operation is
present. -/
theorem api_operations_exactly_enumerated :
    (apiOperations.map (fun o => (o.method, o.path, o.operationId))).Perm
      claimedApiSurface := by
  decide

/-- C10: an operation of the document declares a 422 Validation Error
response, with the `HTTPValidationError` schema, exactly when it accepts a
parameter or a request body, and an operation has only the 200 success
response exactly when it is `listCollections`. -/
theorem validation_error_iff_takes_input :
    ∀ op ∈ apiOperations,
      has422 op = takesInput op
      ∧ op.responses.all
          (fun r => (r.1 != "422") || (r.2 == ResponseSchema.ref "HTTPValidationError")) = true
      ∧ only200 op = (op.operationId == "listCollections") := by
  decide

/-- Instantiation of the 422 characterization at the `addCollection`
operation, which has a request body and hence a 422 response. -/
theorem validation_error_iff_takes_input_witness :
    has422 addCollection = takesInput addCollection
    ∧ addCollection.responses.all
        (fun r => (r.1 != "422") || (r.2 == ResponseSchema.ref "HTTPValidationError")) = true
    ∧ only200 addCollection = (addCollection.operationId == "listCollections") :=
  validation_error_iff_takes_input addCollection (by decide)

/-- A JSON object that satisfies a schema and carries a field whose declared
property is a string constant carries exactly that constant. -/
theorem satisfies_const_field (s : ObjectSchema) (k c : String) (o : JsonObject)
    (v : JsonValue) (hs : findProp s k = some (FieldSchema.constStr c))
    (hv : getField o k = some v) (ho : satisfiesSchema s o = true) :
    v = JsonValue.jStr c := by
  unfold getField at hv
  rcases Option.map_eq_some'.mp hv with ⟨a, hfind, hav⟩
  have hmem : a ∈ o := List.mem_of_find?_eq_some hfind
  have hkey : a.1 = k := by
    have := List.find?_some hfind
    simpa using this
  have hall : fieldOkBySchema s a = true := by
    unfold satisfiesSchema at ho
    rw [Bool.and_eq_true] at ho
    exact List.all_eq_true.mp ho.2 a hmem
  unfold findProp at hs
  rcases Option.map_eq_some'.mp hs with ⟨q, hq, hqc⟩
  unfold fieldOkBySchema at hall
  rw [hkey, hq] at hall
  simp only [] at hall
  rw [hqc] at hall
  cases h2 : a.2 with
  | jStr s0 =>
      rw [h2] at hall
      simp [fieldMatches] at hall
      rw [← hav, h2, hall]
  | jInt n => rw [h2] at hall; simp [fieldMatches] at hall
  | jBool b => rw [h2] at hall; simp [fieldMatches] at hall
  | jNull => rw [h2] at hall; simp [fieldMatches] at hall

/-- C6 counterexample: a JSON object carrying the required fields of both
chunk schemas and omitting the optional `kind` field satisfies both
`TextChunk` and `ImageChunk`, since neither schema lists `kind` as
required and the image fields admit null. -/
def kindlessChunkObj : JsonObject :=
  [ ("id", .jInt 1), ("document_id", .jInt 1), ("text", .jStr "sample")
  , ("raw", .jBool true), ("image", .jNull), ("image_mimetype", .jNull)
  , ("image_path", .jNull), ("image_url", .jNull) ]

/-- C6 counterexample theorem: the chunk schemas are not disjoint as plain
schemas; an object without the `kind` field can satisfy both at once. -/
theorem kindless_object_satisfies_both_chunk_schemas :
    satisfiesSchema TextChunkSchema kindlessChunkObj = true
    ∧ satisfiesSchema ImageChunkSchema kindlessChunkObj = true
    ∧ getField kindlessChunkObj "kind" = none := by
  refine ⟨by decide, by decide, by decide⟩

/-- C6 (amended): the chunk responses of `listChunks` and `getChunk` are
`oneOf` `TextChunk`/`ImageChunk` discriminated by `kind` with the mapping
text to `TextChunk` and image to `ImageChunk`; `TextChunk` fixes `kind` to
the constant text and `ImageChunk` to the constant image; and for every
JSON object that carries the `kind` field, as discriminated payloads do,
the field value forces which schema can hold, so no such object satisfies
both schemas. -/
theorem chunk_schemas_discriminated_by_kind (o : JsonObject) (v : JsonValue)
    (hv : getField o "kind" = some v) :
    findProp TextChunkSchema "kind" = some (FieldSchema.constStr "text")
    ∧ findProp ImageChunkSchema "kind" = some (FieldSchema.constStr "image")
    ∧ lookupResponse listChunks "200" = some (ResponseSchema.arrayOf chunkOneOf)
    ∧ lookupResponse getChunk "200" = some chunkOneOf
    ∧ (satisfiesSchema TextChunkSchema o = true → v = JsonValue.jStr "text")
    ∧ (satisfiesSchema ImageChunkSchema o = true → v = JsonValue.jStr "image")
    ∧ (satisfiesSchema TextChunkSchema o && satisfiesSchema ImageChunkSchema o) = false := by
  have htext : satisfiesSchema TextChunkSchema o = true → v = JsonValue.jStr "text" :=
    fun ho => satisfies_const_field TextChunkSchema "kind" "text" o v (by decide) hv ho
  have himage : satisfiesSchema ImageChunkSchema o = true → v = JsonValue.jStr "image" :=
    fun ho => satisfies_const_field ImageChunkSchema "kind" "image" o v (by decide) hv ho
  refine ⟨by decide, by decide, by decide, by decide, htext, himage, ?_⟩
  cases hT : satisfiesSchema TextChunkSchema o with
  | false => simp
  | true =>
      cases hI : satisfiesSchema ImageChunkSchema o with
      | false => simp
      | true =>
          have h1 := htext hT
          have h2 := himage hI
          rw [h1] at h2
          simp at h2

/-- A concrete text chunk payload carrying the `kind` field. -/
def sampleTextChunkObj : JsonObject :=
  [ ("id", .jInt 1), ("document_id", .jInt 2), ("kind", .jStr "text")
  , ("text", .jStr "sample"), ("raw", .jBool false) ]

/-- Instantiation of the discrimination theorem at a concrete text chunk
payload. -/
theorem chunk_schemas_discriminated_by_kind_witness :
    findProp TextChunkSchema "kind" = some (FieldSchema.constStr "text")
    ∧ findProp ImageChunkSchema "kind" = some (FieldSchema.constStr "image")
    ∧ lookupResponse listChunks "200" = some (ResponseSchema.arrayOf chunkOneOf)
    ∧ lookupResponse getChunk "200" = some chunkOneOf
    ∧ (satisfiesSchema TextChunkSchema sampleTextChunkObj = true
        → JsonValue.jStr "text" = JsonValue.jStr "text")
    ∧ (satisfiesSchema ImageChunkSchema sampleTextChunkObj = true
        → JsonValue.jStr "text" = JsonValue.jStr "image")
    ∧ (satisfiesSchema TextChunkSchema sampleTextChunkObj
        && satisfiesSchema ImageChunkSchema sampleTextChunkObj) = false :=
  chunk_schemas_discriminated_by_kind sampleTextChunkObj (JsonValue.jStr "text") rfl

/-- C9 counterexample: the retrieval table of the Indexing and Retrieval
page names `include_text_chunk`, which is not a property of the
`RetrieveRequest` schema; the schema property is `include_text_chunks`. -/
theorem include_text_chunk_not_a_property :
    "include_text_chunk" ∈ retrievalConfigTable.map DocConfigRow.configName
    ∧ "include_text_chunk" ∉ RetrieveRequestSchema.properties.map SchemaProperty.propName
    ∧ "include_text_chunks" ∈ RetrieveRequestSchema.properties.map SchemaProperty.propName := by
  refine ⟨by decide, by decide, by decide⟩

/-- C9 (amended): every default documented on the Indexing and Retrieval
page equals the corresponding schema default: the collection-level defaults
equal the `CollectionCreate` defaults, the query-level default n equals 10
as in `RetrieveRequest`, and every retrieval option of the page names a
property of `RetrieveRequest` with the same default value — verbatim for
every row except `include_text_chunk`, which corresponds to the property
`include_text_chunks`. -/
theorem doc_defaults_match_schema_defaults :
    indexingConfigTable.all
      (fun row => CollectionCreateSchema.properties.any
        (fun p => (p.propName == row.configName)
          && (match p.defaultVal with
              | some d => defaultCellMatches row.defaultCell d
              | none => false))) = true
    ∧ retrievalConfigTable.all
        (fun row => RetrieveRequestSchema.properties.any
          (fun p => (p.propName == retrievalDocAlias row.configName)
            && (match p.defaultVal with
                | some d => defaultCellMatches row.defaultCell d
                | none => false))) = true
    ∧ retrievalConfigTable.all
        (fun row => (row.configName == "include_text_chunk")
          || (retrievalDocAlias row.configName == row.configName)) = true
    ∧ defaultOfProp RetrieveRequestSchema "n" = some (JsonValue.jInt 10)
    ∧ defaultOfProp CollectionCreateSchema "text_embedding_model"
        = some (JsonValue.jStr "openai:text-embedding-ada-002")
    ∧ defaultOfProp CollectionCreateSchema "text_distance_metric"
        = some (JsonValue.jStr "cosine") := by
  refine ⟨by decide, by decide, by decide, by decide, by decide, by decide⟩

/-! ### Theorems about blog frontmatter -/

/-- C8: every blog post in the repository has an `image` frontmatter field,
and none of the referenced image files is an SVG. -/
theorem blog_images_present_and_non_svg :
    blogPosts.all
      (fun p => match p.image with
        | some i => !(List.isSuffixOf ".svg".data i.data)
        | none => false) = true := by
  decide

end DewySite
